import Mathlib

/-!
Verification of the authentication/authorization layer of the
`emergentesback` Express backend.

The embedding mirrors the TypeScript sources:

* `src/middleware/auth.ts` (shipped inline in `src/routes/propostas.ts`):
  `authAdmin`, `authOptional`, `authAdminLevel`, `getUserType`,
  `canAccessResource`, plus the `AuthRequest` fields (`IdentityContext`).
* `src/routes/login.ts`: the client login handler (`loginPost`).
* the admins route (`src/unnamed/part_000`): `adminSchema`, `validaSenha`
  and the `POST /primeiro-admin` handler (`primeiroAdmin`).

Possibly-undefined JavaScript values are modelled as `Option`; JavaScript
truthiness of strings (`undefined` and `""` are falsy) is `jsTruthyStr`; the
`undefined < n` comparison (which is `false` via `NaN`) is `jsLtOpt`.
-/

/-- JavaScript truthiness of a possibly-undefined string: `undefined` and the
empty string are falsy, every other string is truthy. -/
def jsTruthyStr : Option String → Bool
  | none => false
  | some s => !(s == "")

/-- JavaScript comparison `x < n` where `x` may be `undefined`: comparing
`undefined` numerically goes through `NaN` and is always `false`. -/
def jsLtOpt : Option Int → Int → Bool
  | none, _ => false
  | some v, n => v < n

/-- One word-splitting step of JavaScript `String.prototype.split(" ")`,
operating on the character list: every separator occurrence starts a new
(possibly empty) field, and the empty string splits to `[""]`. -/
def splitSpaceAux : List Char → List (List Char)
  | [] => [[]]
  | c :: rest =>
    match splitSpaceAux rest with
    | [] => if c = ' ' then [[], []] else [[c]]
    | w :: ws => if c = ' ' then [] :: w :: ws else (c :: w) :: ws

/-- JavaScript `s.split(" ")`, as used by the middleware on the
`Authorization` header. -/
def jsSplitSpace (s : String) : List String :=
  (splitSpaceAux s.data).map String.mk

/-- The decoded payload of a verified token.  The middleware reads both the
Admin fields (`AdminTokenType`) and the Client fields (`ClienteTokenType`)
out of the very same decoded object, so the payload carries all of them,
each possibly absent. -/
structure Payload where
  adminLogadoId : Option String
  adminLogadoNome : Option String
  adminLogadoNivel : Option Int
  clienteLogadoId : Option String
  clienteLogadoNome : Option String
  clienteLogadoEmail : Option String
deriving DecidableEq, Repr

/-- A signed token: the claim payload together with the secret it was signed
with and the issued-at / expires-at instants (seconds). -/
structure SignedToken where
  payload : Payload
  secret : String
  iat : Nat
  exp : Nat
deriving DecidableEq, Repr

/-- The two failure kinds of token verification surfaced by the middleware
(`TokenExpiredError` and `JsonWebTokenError`). -/
inductive VerifyError where
  | expired
  | invalid
deriving DecidableEq, Repr

/-- Modelled from the spec: the Token Codec `verify` — the `jsonwebtoken`
library, whose implementation is not under `src/` (only its callers are).
Per §4.1/§8 of the spec it fails with `TokenExpired` whenever the current
instant is past the encoded expiry, regardless of signature validity; it
fails with the invalid kind when the token was signed with a different
secret; otherwise it returns the decoded claims unchanged, with no
requirement on which claim fields the payload carries. -/
def jwtVerify (key : String) (now : Nat) (t : SignedToken) : Except VerifyError Payload :=
  if t.exp ≤ now then .error .expired
  else if t.secret ≠ key then .error .invalid
  else .ok t.payload

/-- Modelled from the spec: the Token Codec `sign` — the `jsonwebtoken`
library, not under `src/`.  It encodes the claims plus issued-at and
expires-at instants (`expiresIn` seconds after issuance) and signs with the
process-wide secret. -/
def jwtSign (p : Payload) (key : String) (now expiresIn : Nat) : SignedToken :=
  ⟨p, key, now, now + expiresIn⟩

/-- The identity fields the middleware attaches to the request
(`AuthRequest`), each possibly undefined. -/
structure IdentityContext where
  adminLogadoId : Option String
  adminLogadoNome : Option String
  adminLogadoNivel : Option Int
  clienteLogadoId : Option String
  clienteLogadoNome : Option String
deriving DecidableEq, Repr

/-- The empty identity context: no field attached. -/
def emptyCtx : IdentityContext := ⟨none, none, none, none, none⟩

/-- Result of running a middleware: either a terminating error response
(`res.status(..).json({erro: ..})` without calling `next()`), or `next()`
with the identity fields it attached to the request. -/
inductive AuthOutcome where
  | reject (status : Nat) (erro : String)
  | proceed (ctx : IdentityContext)
deriving DecidableEq, Repr

/-- `authAdmin` from `src/middleware/auth.ts`: reads the `Authorization`
header, requires the `Bearer <token>` shape, verifies the token and attaches
the Admin fields of the decoded payload (each possibly undefined — the code
never checks they are present).  `vt` is `token ↦ jwt.verify(token, JWT_KEY)`
on token strings. -/
def authAdmin (vt : String → Except VerifyError Payload) :
    Option String → AuthOutcome
  | none => .reject 401 "Token não informado"
  | some a =>
    match (jsSplitSpace a)[1]? with
    | none => .reject 401 "Formato de token inválido. Use: Bearer <token>"
    | some tok =>
      if tok = "" ∨ (jsSplitSpace a)[0]? ≠ some "Bearer" then
        .reject 401 "Formato de token inválido. Use: Bearer <token>"
      else
        match vt tok with
        | .error .expired => .reject 401 "Token expirado"
        | .error .invalid => .reject 401 "Token inválido"
        | .ok p => .proceed ⟨p.adminLogadoId, p.adminLogadoNome, p.adminLogadoNivel, none, none⟩

/-- `authOptional` from `src/middleware/auth.ts`: with no header or a
non-`Bearer` header it proceeds with an empty context.  Otherwise it first
tries the token as an admin token and attaches the Admin fields of the
decoded payload; only if that verification throws does it try the same
token as a client token; if that throws too it proceeds with an empty
context.  Both attempts are the same `jwt.verify` call. -/
def authOptional (vt : String → Except VerifyError Payload) :
    Option String → AuthOutcome
  | none => .proceed emptyCtx
  | some a =>
    match (jsSplitSpace a)[1]? with
    | none => .proceed emptyCtx
    | some tok =>
      if tok = "" ∨ (jsSplitSpace a)[0]? ≠ some "Bearer" then
        .proceed emptyCtx
      else
        match vt tok with
        | .ok p => .proceed ⟨p.adminLogadoId, p.adminLogadoNome, p.adminLogadoNivel, none, none⟩
        | .error _ =>
          match vt tok with
          | .ok p => .proceed ⟨none, none, none, p.clienteLogadoId, p.clienteLogadoNome⟩
          | .error _ => .proceed emptyCtx

/-- `authAdminLevel(levelRequired)` from `src/middleware/auth.ts`: same
extraction and verification as `authAdmin`, then rejects with 403 when
`adminLogadoNivel < levelRequired` (a JavaScript comparison: `false` when
the field is undefined), otherwise attaches the Admin fields and proceeds. -/
def authAdminLevel (levelRequired : Int) (vt : String → Except VerifyError Payload) :
    Option String → AuthOutcome
  | none => .reject 401 "Token não informado"
  | some a =>
    match (jsSplitSpace a)[1]? with
    | none => .reject 401 "Formato de token inválido. Use: Bearer <token>"
    | some tok =>
      if tok = "" ∨ (jsSplitSpace a)[0]? ≠ some "Bearer" then
        .reject 401 "Formato de token inválido. Use: Bearer <token>"
      else
        match vt tok with
        | .error .expired => .reject 401 "Token expirado"
        | .error .invalid => .reject 401 "Token inválido"
        | .ok p =>
          if jsLtOpt p.adminLogadoNivel levelRequired then
            .reject 403 "Acesso negado. Nível de permissão insuficiente."
          else
            .proceed ⟨p.adminLogadoId, p.adminLogadoNome, p.adminLogadoNivel, none, none⟩

/-- The user type of `getUserType`. -/
inductive UserType where
  | admin
  | cliente
deriving DecidableEq, Repr

/-- `getUserType` from `src/middleware/auth.ts`: `'admin'` when
`req.adminLogadoId` is truthy, else `'cliente'` when `req.clienteLogadoId`
is truthy, else `null`. -/
def getUserType (ctx : IdentityContext) : Option UserType :=
  if jsTruthyStr ctx.adminLogadoId then some .admin
  else if jsTruthyStr ctx.clienteLogadoId then some .cliente
  else none

/-- An Admin identity is present in the context when the `adminLogadoId`
field is attached and truthy — the convention the code itself uses
(`if (req.adminLogadoId)` in `getUserType` and `canAccessResource`). -/
def adminPresent (ctx : IdentityContext) : Bool :=
  jsTruthyStr ctx.adminLogadoId

/-- `canAccessResource` from `src/middleware/auth.ts`: admins can access any
resource; clients only resources whose owner id strictly equals their own
id (`===`, which is `false` against an undefined field). -/
def canAccessResource (resourceOwnerId : String) (ctx : IdentityContext) : Bool :=
  if jsTruthyStr ctx.adminLogadoId then true
  else ctx.clienteLogadoId == some resourceOwnerId

/-- A stored client record (`prisma.cliente`); `senha` holds the bcrypt
hash. -/
structure Cliente where
  id : String
  nome : String
  email : String
  senha : String
  cidade : String
deriving DecidableEq, Repr

/-- The generic failure message of the login handler in
`src/routes/login.ts`. -/
def mensaPadrao : String := "Login ou senha incorretos"

/-- Body of a login response: either an error object or the public profile
fields plus the minted token. -/
inductive LoginBody where
  | erro (msg : String)
  | ok (id nome email : String) (token : SignedToken)
deriving DecidableEq, Repr

/-- An HTTP response of the login handler: status code and JSON body. -/
structure LoginResponse where
  status : Nat
  body : LoginBody
deriving DecidableEq, Repr

/-- The client login handler `router.post("/")` of `src/routes/login.ts`.
`compareSync` is `bcrypt.compareSync` (supplied secret against stored
hash); `clientes` is the store queried by `prisma.cliente.findFirst`;
`jwtKey` is `process.env.JWT_KEY`; `now` the current instant.  Missing or
empty body fields are falsy and yield the generic message; an unknown email
and a failing hash comparison yield byte-identical responses; on success a
token with the client id, name and email and a 1-hour expiry is minted. -/
def loginPost (compareSync : String → String → Bool) (jwtKey : String) (now : Nat)
    (clientes : List Cliente) (email senha : Option String) : LoginResponse :=
  match email, senha with
  | some e, some s =>
    if e = "" ∨ s = "" then ⟨400, .erro mensaPadrao⟩
    else
      match clientes.find? (fun c => c.email == e) with
      | none => ⟨400, .erro mensaPadrao⟩
      | some cliente =>
        if !(compareSync s cliente.senha) then ⟨400, .erro mensaPadrao⟩
        else
          ⟨200, .ok cliente.id cliente.nome cliente.email
            (jwtSign ⟨none, none, none, some cliente.id, some cliente.nome, some cliente.email⟩
              jwtKey now 3600)⟩
  | _, _ => ⟨400, .erro mensaPadrao⟩

/-- A stored admin record (`prisma.admin`); `senha` holds the bcrypt hash. -/
structure Admin where
  id : String
  nome : String
  email : String
  senha : String
  nivel : Int
deriving DecidableEq, Repr

/-- The raw JSON body of an admin-creation request, before `zod`
validation; each field may be absent. -/
structure AdminBody where
  nome : Option String
  email : Option String
  senha : Option String
  nivel : Option Int
deriving DecidableEq, Repr

/-- The validation errors `adminSchema.safeParse` collects on a body
(admins route, `src/unnamed/part_000`): `nome` required with at least 10
characters, `email` required and a valid e-mail (`emailOk` stands for zod's
e-mail test), `senha` required, `nivel` required with `1 ≤ nivel ≤ 5`.
The parse succeeds exactly when this list is empty. -/
def adminSchemaErrors (emailOk : String → Bool) (b : AdminBody) : List String :=
  (match b.nome with
   | none => ["Required"]
   | some n => if n.length < 10 then ["Nome deve possuir, no mínimo, 10 caracteres"] else []) ++
  (match b.email with
   | none => ["Required"]
   | some e => if emailOk e then [] else ["Invalid email"]) ++
  (match b.senha with
   | none => ["Required"]
   | some _ => []) ++
  (match b.nivel with
   | none => ["Required"]
   | some v =>
     (if v < 1 then ["Nível, no mínimo, 1"] else []) ++
     (if v > 5 then ["Nível, no máximo, 5"] else []))

/-- The character-class counters of `validaSenha`: lowercase, uppercase,
digits, and everything else, classified by the source's else-if chain. -/
def contaTipos : List Char → Nat × Nat × Nat × Nat
  | [] => (0, 0, 0, 0)
  | c :: rest =>
    let r := contaTipos rest
    if 'a' ≤ c ∧ c ≤ 'z' then (r.1 + 1, r.2.1, r.2.2.1, r.2.2.2)
    else if 'A' ≤ c ∧ c ≤ 'Z' then (r.1, r.2.1 + 1, r.2.2.1, r.2.2.2)
    else if '0' ≤ c ∧ c ≤ '9' then (r.1, r.2.1, r.2.2.1 + 1, r.2.2.2)
    else (r.1, r.2.1, r.2.2.1, r.2.2.2 + 1)

/-- `validaSenha` of the admins route: the list of password-strength error
messages (minimum length 8, and at least one lowercase, uppercase, digit
and symbol). -/
def validaSenha (senha : String) : List String :=
  (if senha.length < 8 then ["Senha deve possuir, no mínimo, 8 caracteres"] else []) ++
  (let r := contaTipos senha.data
   (if r.1 = 0 then ["Senha deve possuir letra(s) minúscula(s)"] else []) ++
   (if r.2.1 = 0 then ["Senha deve possuir letra(s) maiúscula(s)"] else []) ++
   (if r.2.2.1 = 0 then ["Senha deve possuir número(s)"] else []) ++
   (if r.2.2.2 = 0 then ["Senha deve possuir símbolo(s)"] else []))

/-- Body of an admin-route response: a plain error message, the `zod`
error list, or the created admin's deterministic fields (the store-generated
`id`/`createdAt` are external). -/
inductive AdminRouteBody where
  | erro (msg : String)
  | erroValidacao (msgs : List String)
  | criado (nome email : String) (nivel : Int)
deriving DecidableEq, Repr

/-- An HTTP response of the admins route. -/
structure AdminRouteResponse where
  status : Nat
  body : AdminRouteBody
deriving DecidableEq, Repr

/-- The unauthenticated bootstrap handler `router.post("/primeiro-admin")`
of the admins route (`src/unnamed/part_000`): first rejects when any admin
already exists (`prisma.admin.count() > 0`), then validates the body with
`adminSchema`, then `validaSenha`, then the duplicate-email check, and
finally creates the admin with `nivel: nivel || 5` (JavaScript `||`:
the default applies only to a falsy — zero — level). -/
def primeiroAdmin (emailOk : String → Bool) (admins : List Admin)
    (b : AdminBody) : AdminRouteResponse :=
  if admins.length > 0 then
    ⟨400, .erro "Já existe um administrador cadastrado no sistema"⟩
  else
    match adminSchemaErrors emailOk b with
    | e :: es => ⟨400, .erroValidacao (e :: es)⟩
    | [] =>
      match b.nome, b.email, b.senha, b.nivel with
      | some nome, some email, some senha, some nivel =>
        match validaSenha senha with
        | e :: es => ⟨400, .erro (String.intercalate "; " (e :: es))⟩
        | [] =>
          if (admins.find? (fun a => a.email == email)).isSome then
            ⟨400, .erro "E-mail já cadastrado"⟩
          else
            ⟨201, .criado nome email (if nivel == 0 then 5 else nivel)⟩
      -- unreachable: an empty `adminSchemaErrors` list forces all four
      -- fields to be present
      | _, _, _, _ => ⟨400, .erroValidacao []⟩

/-- A claim payload of the shape the client login flow mints: only the
client fields are present, no admin field. -/
def clientePayloadEx : Payload :=
  ⟨none, none, none, some "c1", some "Ana Cliente", some "ana@x.com"⟩

/-- A claim payload carrying the Admin fields, and for good measure also a
syntactically valid Client claim set. -/
def adminPayloadEx : Payload :=
  ⟨some "a1", some "Administrador Master", some 3, some "c9", some "Outra Pessoa", some "o@x.com"⟩

/-- Claim C1: the spec says that for a validly signed Client token the
Optional resolver first fails the Admin decoding and then succeeds the
Client decoding, attaching `clienteLogadoId`/`clienteLogadoNome`.  The code
does not do this: `jwt.verify` checks only signature and expiry, never the
payload shape, so the admin attempt *succeeds* on a Client token, the
middleware assigns the (undefined) admin fields, the client branch is never
reached, and the request proceeds with an empty identity context
(`getUserType` yields `null`, so the proposal owner is even denied access
to their own proposal downstream).  This contradicts the code's own
comments and the routes built on `authOptional`. -/
theorem c1_clientToken_authOptional_yieldsEmptyIdentity :
    authOptional
      (fun s => if s == "t"
        then jwtVerify "segredo" 2000 (jwtSign clientePayloadEx "segredo" 1000 3600)
        else Except.error VerifyError.invalid)
      (some "Bearer t")
      = AuthOutcome.proceed emptyCtx
    ∧ getUserType emptyCtx = none := by
  constructor
  · decide
  · decide

/-- Claim C2: the Require-Admin resolver accepts every validly signed
token, whatever fields its payload carries — in particular a Client token —
and proceeds to the handler with the (possibly undefined) admin fields of
the decoded payload attached; it never rejects a validly signed Client
token. -/
theorem c2_authAdmin_accepts_any_validly_signed_token
    (key : String) (now : Nat) (t : SignedToken) (auth tokStr : String)
    (hsig : t.secret = key) (hexp : now < t.exp)
    (hsplit : jsSplitSpace auth = ["Bearer", tokStr]) (hne : tokStr ≠ "") :
    authAdmin (fun s => if s == tokStr then jwtVerify key now t else Except.error VerifyError.invalid)
      (some auth)
      = AuthOutcome.proceed
          ⟨t.payload.adminLogadoId, t.payload.adminLogadoNome, t.payload.adminLogadoNivel,
            none, none⟩ := by
  have hexp' : ¬ t.exp ≤ now := Nat.not_le.mpr hexp
  simp [authAdmin, hsplit, hne, jwtVerify, hexp', hsig]

/-- Witness for C2 at a concrete client-login token. -/
theorem c2_witness :
    authAdmin
      (fun s => if s == "tok"
        then jwtVerify "k" 0 (jwtSign clientePayloadEx "k" 0 3600)
        else Except.error VerifyError.invalid)
      (some "Bearer tok")
      = AuthOutcome.proceed ⟨none, none, none, none, none⟩ :=
  c2_authAdmin_accepts_any_validly_signed_token "k" 0 (jwtSign clientePayloadEx "k" 0 3600)
    "Bearer tok" "tok" rfl (by decide) (by decide) (by decide)

/-- Claim C3: for a validly signed token whose payload carries the Admin
fields, the Optional resolver attaches exactly those Admin fields — the
admin interpretation is attempted first and wins, even when the payload
would also decode as a valid Client claim set — and the resulting context
is an Admin identity context. -/
theorem c3_authOptional_adminTokenWins
    (key : String) (now : Nat) (t : SignedToken) (auth tokStr : String)
    (aid anome : String) (anivel : Int)
    (hsig : t.secret = key) (hexp : now < t.exp)
    (hid : t.payload.adminLogadoId = some aid) (hidne : aid ≠ "")
    (hnome : t.payload.adminLogadoNome = some anome)
    (hnivel : t.payload.adminLogadoNivel = some anivel)
    (hsplit : jsSplitSpace auth = ["Bearer", tokStr]) (hne : tokStr ≠ "") :
    authOptional (fun s => if s == tokStr then jwtVerify key now t else Except.error VerifyError.invalid)
      (some auth)
      = AuthOutcome.proceed ⟨some aid, some anome, some anivel, none, none⟩
    ∧ getUserType ⟨some aid, some anome, some anivel, none, none⟩ = some UserType.admin := by
  have hexp' : ¬ t.exp ≤ now := Nat.not_le.mpr hexp
  constructor
  · simp [authOptional, hsplit, hne, jwtVerify, hexp', hsig, hid, hnome, hnivel]
  · simp [getUserType, jsTruthyStr, hidne]

/-- Witness for C3 at a concrete token valid under both interpretations. -/
theorem c3_witness :
    authOptional
      (fun s => if s == "tok"
        then jwtVerify "k" 0 (jwtSign adminPayloadEx "k" 0 3600)
        else Except.error VerifyError.invalid)
      (some "Bearer tok")
      = AuthOutcome.proceed ⟨some "a1", some "Administrador Master", some 3, none, none⟩
    ∧ getUserType ⟨some "a1", some "Administrador Master", some 3, none, none⟩
      = some UserType.admin :=
  c3_authOptional_adminTokenWins "k" 0 (jwtSign adminPayloadEx "k" 0 3600)
    "Bearer tok" "tok" "a1" "Administrador Master" 3
    rfl (by decide) rfl (by decide) rfl rfl (by decide) (by decide)

/-- Claim C4: `canAccessResource` returns true for every owner id whenever
an Admin identity is present in the context, and with no Admin identity it
returns true exactly when the context's Client identifier equals the
owner id. -/
theorem c4_canAccessResource_adminBypass_clientOwnership
    (resourceOwnerId : String) (ctx : IdentityContext) :
    (adminPresent ctx = true → canAccessResource resourceOwnerId ctx = true)
    ∧ (adminPresent ctx = false →
        (canAccessResource resourceOwnerId ctx = true
          ↔ ctx.clienteLogadoId = some resourceOwnerId)) := by
  constructor
  · intro h
    simp [canAccessResource, adminPresent] at *
    simp [h]
  · intro h
    simp [canAccessResource, adminPresent] at *
    simp [h]

/-- Witness for C4: a concrete admin context bypasses ownership and a
concrete client context accesses its own resource. -/
theorem c4_witness :
    canAccessResource "qualquer-recurso" ⟨some "a1", some "Adm", some 5, none, none⟩ = true
    ∧ canAccessResource "c1" ⟨none, none, none, some "c1", some "Ana"⟩ = true :=
  ⟨(c4_canAccessResource_adminBypass_clientOwnership "qualquer-recurso"
      ⟨some "a1", some "Adm", some 5, none, none⟩).1 (by decide),
   ((c4_canAccessResource_adminBypass_clientOwnership "c1"
      ⟨none, none, none, some "c1", some "Ana"⟩).2 (by decide)).mpr (by decide)⟩

/-- Claim C10: for a validly signed token whose payload lacks
`adminLogadoNivel`, the level guard lets the request proceed for every
required level: the JavaScript comparison `undefined < levelRequired` is
false, so the 403 branch is never taken. -/
theorem c10_authAdminLevel_undefinedNivel_passes
    (levelRequired : Int) (key : String) (now : Nat) (t : SignedToken) (auth tokStr : String)
    (hsig : t.secret = key) (hexp : now < t.exp)
    (hnivel : t.payload.adminLogadoNivel = none)
    (hsplit : jsSplitSpace auth = ["Bearer", tokStr]) (hne : tokStr ≠ "") :
    authAdminLevel levelRequired
      (fun s => if s == tokStr then jwtVerify key now t else Except.error VerifyError.invalid)
      (some auth)
      = AuthOutcome.proceed ⟨t.payload.adminLogadoId, t.payload.adminLogadoNome, none, none, none⟩ := by
  have hexp' : ¬ t.exp ≤ now := Nat.not_le.mpr hexp
  simp [authAdminLevel, hsplit, hne, jwtVerify, hexp', hsig, hnivel, jsLtOpt]

/-- Witness for C10 at a concrete client-login token and required level 3. -/
theorem c10_witness :
    authAdminLevel 3
      (fun s => if s == "tok"
        then jwtVerify "k" 0 (jwtSign clientePayloadEx "k" 0 3600)
        else Except.error VerifyError.invalid)
      (some "Bearer tok")
      = AuthOutcome.proceed ⟨none, none, none, none, none⟩ :=
  c10_authAdminLevel_undefinedNivel_passes 3 "k" 0 (jwtSign clientePayloadEx "k" 0 3600)
    "Bearer tok" "tok" rfl (by decide) rfl (by decide) (by decide)

/-- Claim C5: the Require-Admin resolver fails with a kind-specific HTTP
401 in exactly these cases — missing header, malformed/absent `Bearer`
scheme or empty token, expired token, any other verification failure — and
in every failure case it terminates the request (a `reject` outcome:
the response is sent and `next()` is never called), while a verified token
always proceeds.  The first conjunct shows every rejection is a 401 with
one of the four kind-specific messages; the rest show each listed cause
produces its kind-specific rejection. -/
theorem c5_authAdmin_failure_cases (vt : String → Except VerifyError Payload)
    (auth : Option String) :
    (∀ st m, authAdmin vt auth = AuthOutcome.reject st m →
        st = 401 ∧ (m = "Token não informado"
          ∨ m = "Formato de token inválido. Use: Bearer <token>"
          ∨ m = "Token expirado" ∨ m = "Token inválido"))
    ∧ (auth = none → authAdmin vt auth = AuthOutcome.reject 401 "Token não informado")
    ∧ (∀ a, auth = some a → (jsSplitSpace a)[1]? = none →
        authAdmin vt auth = AuthOutcome.reject 401 "Formato de token inválido. Use: Bearer <token>")
    ∧ (∀ a tok, auth = some a → (jsSplitSpace a)[1]? = some tok →
        (tok = "" ∨ (jsSplitSpace a)[0]? ≠ some "Bearer") →
        authAdmin vt auth = AuthOutcome.reject 401 "Formato de token inválido. Use: Bearer <token>")
    ∧ (∀ a tok, auth = some a → (jsSplitSpace a)[1]? = some tok →
        tok ≠ "" → (jsSplitSpace a)[0]? = some "Bearer" →
        (vt tok = .error .expired →
          authAdmin vt auth = AuthOutcome.reject 401 "Token expirado")
        ∧ (vt tok = .error .invalid →
          authAdmin vt auth = AuthOutcome.reject 401 "Token inválido")
        ∧ (∀ p, vt tok = .ok p →
          authAdmin vt auth = AuthOutcome.proceed
            ⟨p.adminLogadoId, p.adminLogadoNome, p.adminLogadoNivel, none, none⟩)) := by
  refine ⟨?_, ?_, ?_, ?_, ?_⟩
  · intro st m h
    cases auth with
    | none => simp only [authAdmin] at h; simp_all
    | some a =>
      simp only [authAdmin] at h
      split at h
      · simp_all
      · split at h
        · simp_all
        · split at h <;> simp_all
  · intro h; subst h; simp [authAdmin]
  · intro a ha hg; subst ha; simp [authAdmin, hg]
  · intro a tok ha hg hbad; subst ha
    simp only [authAdmin, hg]
    rw [if_pos hbad]
  · intro a tok ha hg hne hb; subst ha
    simp only [authAdmin, hg]
    rw [if_neg (by push_neg; exact ⟨hne, by simp [hb]⟩)]
    refine ⟨fun hv => by simp [hv], fun hv => by simp [hv], fun p hv => by simp [hv]⟩

/-- Witness for C5: concrete rejections of the missing-header, expired,
invalid and malformed kinds. -/
theorem c5_witness :
    authAdmin (fun _ => Except.error VerifyError.invalid) none
      = AuthOutcome.reject 401 "Token não informado"
    ∧ authAdmin (fun _ => Except.error VerifyError.expired) (some "Bearer t")
      = AuthOutcome.reject 401 "Token expirado"
    ∧ authAdmin (fun _ => Except.error VerifyError.invalid) (some "Bearer t")
      = AuthOutcome.reject 401 "Token inválido"
    ∧ authAdmin (fun _ => Except.error VerifyError.invalid) (some "Token t")
      = AuthOutcome.reject 401 "Formato de token inválido. Use: Bearer <token>" :=
  ⟨(c5_authAdmin_failure_cases _ none).2.1 rfl,
   ((c5_authAdmin_failure_cases _ (some "Bearer t")).2.2.2.2 "Bearer t" "t"
      rfl (by decide) (by decide) (by decide)).1 rfl,
   ((c5_authAdmin_failure_cases _ (some "Bearer t")).2.2.2.2 "Bearer t" "t"
      rfl (by decide) (by decide) (by decide)).2.1 rfl,
   (c5_authAdmin_failure_cases _ (some "Token t")).2.2.2.1 "Token t" "t"
      rfl (by decide) (Or.inr (by decide))⟩

/-- Claim C6: a login with an email matching no stored client and a login
with a matching email but a failing hash comparison produce the identical
response — status 400 and body erro "Login ou senha incorretos" — so the
two failure causes are indistinguishable to the caller. -/
theorem c6_login_failures_indistinguishable
    (compareSync : String → String → Bool) (jwtKey₁ jwtKey₂ : String) (now₁ now₂ : Nat)
    (clientes₁ clientes₂ : List Cliente) (e₁ s₁ e₂ s₂ : String) (c : Cliente)
    (he₁ : e₁ ≠ "") (hs₁ : s₁ ≠ "")
    (hfind₁ : clientes₁.find? (fun cl => cl.email == e₁) = none)
    (he₂ : e₂ ≠ "") (hs₂ : s₂ ≠ "")
    (hfind₂ : clientes₂.find? (fun cl => cl.email == e₂) = some c)
    (hcmp : compareSync s₂ c.senha = false) :
    loginPost compareSync jwtKey₁ now₁ clientes₁ (some e₁) (some s₁)
      = loginPost compareSync jwtKey₂ now₂ clientes₂ (some e₂) (some s₂)
    ∧ loginPost compareSync jwtKey₁ now₁ clientes₁ (some e₁) (some s₁)
      = ⟨400, LoginBody.erro "Login ou senha incorretos"⟩ := by
  have h1 : loginPost compareSync jwtKey₁ now₁ clientes₁ (some e₁) (some s₁)
      = ⟨400, LoginBody.erro "Login ou senha incorretos"⟩ := by
    simp [loginPost, he₁, hs₁, hfind₁, mensaPadrao]
  have h2 : loginPost compareSync jwtKey₂ now₂ clientes₂ (some e₂) (some s₂)
      = ⟨400, LoginBody.erro "Login ou senha incorretos"⟩ := by
    simp [loginPost, he₂, hs₂, hfind₂, hcmp, mensaPadrao]
  exact ⟨h1.trans h2.symm, h1⟩

/-- Witness for C6 at a concrete store: unknown email versus wrong
password against the stored record. -/
theorem c6_witness :
    loginPost (fun s h => s == h) "k" 0 [⟨"c1", "Ana Silva", "a@x.com", "Senha123!", "POA"⟩]
      (some "ninguem@x.com") (some "qualquer")
      = loginPost (fun s h => s == h) "k" 0 [⟨"c1", "Ana Silva", "a@x.com", "Senha123!", "POA"⟩]
        (some "a@x.com") (some "errada")
    ∧ loginPost (fun s h => s == h) "k" 0 [⟨"c1", "Ana Silva", "a@x.com", "Senha123!", "POA"⟩]
      (some "ninguem@x.com") (some "qualquer")
      = ⟨400, LoginBody.erro "Login ou senha incorretos"⟩ :=
  c6_login_failures_indistinguishable (fun s h => s == h) "k" "k" 0 0
    [⟨"c1", "Ana Silva", "a@x.com", "Senha123!", "POA"⟩]
    [⟨"c1", "Ana Silva", "a@x.com", "Senha123!", "POA"⟩]
    "ninguem@x.com" "qualquer" "a@x.com" "errada"
    ⟨"c1", "Ana Silva", "a@x.com", "Senha123!", "POA"⟩
    (by decide) (by decide) (by decide) (by decide) (by decide) (by decide) (by decide)

/-- Claim C7, counterexample: a successful client login mints a token whose
signed claim set also carries `clienteLogadoEmail` — an additional
principal field beyond the claimed clientId/clientName/issuedAt/expiresAt
set. -/
theorem c7_counterexample_tokenCarriesEmail :
    loginPost (fun s h => s == h) "k" 0 [⟨"c1", "Ana Silva", "a@x.com", "Senha123!", "POA"⟩]
      (some "a@x.com") (some "Senha123!")
      = ⟨200, LoginBody.ok "c1" "Ana Silva" "a@x.com"
          ⟨⟨none, none, none, some "c1", some "Ana Silva", some "a@x.com"⟩, "k", 0, 3600⟩⟩
    ∧ (⟨⟨none, none, none, some "c1", some "Ana Silva", some "a@x.com"⟩, "k", 0, 3600⟩
        : SignedToken).payload.clienteLogadoEmail ≠ none := by
  constructor
  · decide
  · decide

/-- Claim C7 as amended: every successful client login mints a token whose
signed claim set contains exactly the fields clientId, clientName,
clientEmail, issuedAt and expiresAt — no admin field — with the expiry
instant fixed at one hour (3600 s) after issuance. -/
theorem c7_amended_mintedClaims
    (compareSync : String → String → Bool) (jwtKey : String) (now : Nat)
    (clientes : List Cliente) (e s : String) (c : Cliente)
    (he : e ≠ "") (hs : s ≠ "")
    (hfind : clientes.find? (fun cl => cl.email == e) = some c)
    (hcmp : compareSync s c.senha = true) :
    loginPost compareSync jwtKey now clientes (some e) (some s)
      = ⟨200, LoginBody.ok c.id c.nome c.email
          ⟨⟨none, none, none, some c.id, some c.nome, some c.email⟩, jwtKey, now, now + 3600⟩⟩ := by
  simp [loginPost, he, hs, hfind, hcmp, jwtSign]

/-- Witness for the amended C7 at a concrete store. -/
theorem c7_amended_witness :
    loginPost (fun s h => s == h) "k" 100 [⟨"c1", "Ana Silva", "a@x.com", "Senha123!", "POA"⟩]
      (some "a@x.com") (some "Senha123!")
      = ⟨200, LoginBody.ok "c1" "Ana Silva" "a@x.com"
          ⟨⟨none, none, none, some "c1", some "Ana Silva", some "a@x.com"⟩, "k", 100, 100 + 3600⟩⟩ :=
  c7_amended_mintedClaims (fun s h => s == h) "k" 100
    [⟨"c1", "Ana Silva", "a@x.com", "Senha123!", "POA"⟩] "a@x.com" "Senha123!"
    ⟨"c1", "Ana Silva", "a@x.com", "Senha123!", "POA"⟩
    (by decide) (by decide) (by decide) (by decide)

/-- Claim C8: a token whose expiry instant is past fails verification with
the expired kind regardless of the secret it was signed with — the theorem
places no hypothesis on `t.secret` — and the resolver surfaces it as HTTP
401 "Token expirado". -/
theorem c8_expired_wins_over_signature
    (key : String) (now : Nat) (t : SignedToken) (auth tokStr : String)
    (hexp : t.exp ≤ now)
    (hsplit : jsSplitSpace auth = ["Bearer", tokStr]) (hne : tokStr ≠ "") :
    jwtVerify key now t = .error .expired
    ∧ authAdmin (fun s => if s == tokStr then jwtVerify key now t else Except.error VerifyError.invalid)
        (some auth)
      = AuthOutcome.reject 401 "Token expirado" := by
  have h1 : jwtVerify key now t = .error .expired := by simp [jwtVerify, hexp]
  exact ⟨h1, by simp [authAdmin, hsplit, hne, h1]⟩

/-- Witness for C8: a token signed with a different secret, already
expired, still fails with the expired kind. -/
theorem c8_witness :
    jwtVerify "k" 100 (jwtSign adminPayloadEx "outro-segredo" 0 10) = .error .expired
    ∧ authAdmin
        (fun s => if s == "tok"
          then jwtVerify "k" 100 (jwtSign adminPayloadEx "outro-segredo" 0 10)
          else Except.error VerifyError.invalid)
        (some "Bearer tok")
      = AuthOutcome.reject 401 "Token expirado" :=
  c8_expired_wins_over_signature "k" 100 (jwtSign adminPayloadEx "outro-segredo" 0 10)
    "Bearer tok" "tok" (by decide) (by decide) (by decide)

/-- Claim C9, counterexample: with zero admins, a bootstrap call whose body
is valid except that it does not supply the level is rejected with a 400
validation error — the level is never defaulted to 5, because
`adminSchema` makes `nivel` required. -/
theorem c9_counterexample_nivelRequired :
    primeiroAdmin (fun _ => true) []
      ⟨some "Administrador Silva", some "a@x.com", some "Senha123!", none⟩
      = ⟨400, AdminRouteBody.erroValidacao ["Required"]⟩ := by
  decide

/-- Claim C9 as amended: when zero admins exist, a bootstrap call with a
schema-valid body — which must include a level between 1 and 5 — succeeds
with HTTP 201 and the supplied level (the `nivel || 5` default never fires,
since validation requires the level to be at least 1); and every call made
while at least one admin exists fails with HTTP 400 and erro "Já existe um
administrador cadastrado no sistema", before any validation or creation is
attempted. -/
theorem c9_amended_bootstrap
    (emailOk : String → Bool) (nome email senha : String) (nivel : Int)
    (hnome : ¬ nome.length < 10) (hemail : emailOk email = true)
    (hsenha : validaSenha senha = []) (h1 : 1 ≤ nivel) (h5 : nivel ≤ 5) :
    primeiroAdmin emailOk [] ⟨some nome, some email, some senha, some nivel⟩
      = ⟨201, AdminRouteBody.criado nome email nivel⟩
    ∧ ∀ (admins : List Admin) (b : AdminBody), admins ≠ [] →
        primeiroAdmin emailOk admins b
          = ⟨400, AdminRouteBody.erro "Já existe um administrador cadastrado no sistema"⟩ := by
  constructor
  · have herr : adminSchemaErrors emailOk ⟨some nome, some email, some senha, some nivel⟩ = [] := by
      simp [adminSchemaErrors, hnome, hemail]
      constructor <;> omega
    have hnz : ¬ nivel == 0 := by simp; omega
    simp [primeiroAdmin, herr, hsenha, hnz]
  · intro admins b h
    cases admins with
    | nil => exact absurd rfl h
    | cons a as => simp [primeiroAdmin]

/-- Witness for the amended C9 at concrete bodies and stores. -/
theorem c9_amended_witness :
    primeiroAdmin (fun _ => true) []
      ⟨some "Administrador Silva", some "a@x.com", some "Senha123!", some 4⟩
      = ⟨201, AdminRouteBody.criado "Administrador Silva" "a@x.com" 4⟩
    ∧ primeiroAdmin (fun _ => true) [⟨"a0", "Admin Zero Silva", "z@x.com", "hash", 5⟩]
        ⟨some "Administrador Silva", some "a@x.com", some "Senha123!", some 4⟩
      = ⟨400, AdminRouteBody.erro "Já existe um administrador cadastrado no sistema"⟩ :=
  ⟨(c9_amended_bootstrap (fun _ => true) "Administrador Silva" "a@x.com" "Senha123!" 4
      (by decide) (by decide) (by decide) (by decide) (by decide)).1,
   (c9_amended_bootstrap (fun _ => true) "Administrador Silva" "a@x.com" "Senha123!" 4
      (by decide) (by decide) (by decide) (by decide) (by decide)).2
     [⟨"a0", "Admin Zero Silva", "z@x.com", "hash", 5⟩]
     ⟨some "Administrador Silva", some "a@x.com", some "Senha123!", some 4⟩
     (by decide)⟩
